import Mathlib

/-!
Verification of the `ShapedReward` reward evaluator of the Grid2Op-RTC-Fork
repository (`grid2op/Reward/shapedReward.py` and its duplicate
`grid2op/Reward/shaped_reward.py`).

The observation data consumed by the reward is embedded as lists of exact
rationals (the line load ratios), booleans (line connection status) and
integers (maintenance / attack counters).  The Python float arithmetic is
modelled over `ℚ` and the final `math.exp` over `ℝ` via `Real.exp`.
Fallible steps (numpy's `max` of an empty array, reading the `reward_min`
attribute before it has been set) are modelled with `Option` / `Except`.
-/

namespace Grid2Op

/-- The slice of a grid2op observation read by `ShapedReward`:
`obs.rho` (per-line load ratios), `obs.line_status`,
`obs.time_next_maintenance` and `obs.time_since_last_attack`,
all index-aligned per line. -/
structure GridObservation where
  rho : List ℚ
  line_status : List Bool
  time_next_maintenance : List ℤ
  time_since_last_attack : List ℤ

/-- The part of the environment the reward reads: `env.current_obs`. -/
structure Env where
  current_obs : GridObservation

/-- numpy's `ndarray.max()` reduction: it raises a `ValueError` on an empty
array, modelled by `none`; on `x :: xs` it folds `max` over the elements. -/
def arrayMax : List ℚ → Option ℚ
  | [] => none
  | x :: xs => some (xs.foldl max x)

namespace ShapedReward

/-- The overflow coefficient `u` of `ShapedReward.line_overflowing_sum`
(`shapedReward.py`): if `obs.rho.max() <= 1` then
`u = max([obs.rho.max() - 0.5, 0])`, else
`u = sum([rho - 0.5 for rho in obs.rho if rho > 1])`.
`none` when `obs.rho` is empty (numpy `max` raises). -/
def overflowCoeff (obs : GridObservation) : Option ℚ :=
  (arrayMax obs.rho).map fun m =>
    if m ≤ 1 then max (m - 1/2) 0
    else ((obs.rho.filter fun r => decide (1 < r)).map fun r => r - 1/2).sum

/-- `n_offline` of `line_overflowing_sum`:
`np.sum(obs.line_status == False) - np.sum(obs.time_next_maintenance == 0)
- np.sum(obs.time_since_last_attack >= 0)`, an unclamped integer. -/
def n_offline (obs : GridObservation) : ℤ :=
  (obs.line_status.countP (fun b => b == false) : ℤ)
    - (obs.time_next_maintenance.countP (fun t => t == 0) : ℤ)
    - (obs.time_since_last_attack.countP (fun t => decide (0 ≤ t)) : ℤ)

/-- The exponent `-u - 0.5 * n_offline` fed to `math.exp` by
`line_overflowing_sum`; `none` when `obs.rho` is empty. -/
def rewardExponent (obs : GridObservation) : Option ℚ :=
  (overflowCoeff obs).map fun u => -u - 1/2 * (n_offline obs : ℚ)

/-- `ShapedReward.line_overflowing_sum(env)` of `shapedReward.py`:
`math.exp(-u - 0.5 * n_offline)` on `env.current_obs`;
`none` when the observation has no lines. -/
noncomputable def line_overflowing_sum (env : Env) : Option ℝ :=
  (rewardExponent env.current_obs).map fun e => Real.exp (e : ℝ)

/-- The instance state of a `ShapedReward` object: the `reward_min`
attribute, absent (`none`) until it has been set. -/
structure State where
  reward_min : Option ℚ

/-- Modelled from the spec: `ShapedReward.__init__` delegates to
`BaseReward.__init__` (`grid2op/Reward/baseReward.py`, not part of the
source tree).  Per the spec the floor constant is "set once during an
initialization phase at episode start", so after construction alone the
`reward_min` attribute is absent. -/
def construct : State := { reward_min := none }

/-- `ShapedReward.initialize(env)` of `shapedReward.py`:
sets `self.reward_min = dt_float(0.0)`. -/
def initialise (_st : State) (_env : Env) : State := { reward_min := some 0 }

/-- `ShapedReward.__call__(action, env, has_error, is_done, is_illegal,
is_ambiguous)` of `shapedReward.py`: if `not is_done and not has_error`,
return `line_overflowing_sum(env)` (a `ValueError` escapes on an empty
observation); otherwise return `self.reward_min` (an `AttributeError`
escapes when the attribute was never set). -/
noncomputable def call {α : Type} (st : State) (_action : α) (env : Env)
    (has_error is_done _is_illegal _is_ambiguous : Bool) : Except String ℝ :=
  if !is_done && !has_error then
    match line_overflowing_sum env with
    | some r => Except.ok r
    | none => Except.error "ValueError: zero-size array to reduction operation"
  else
    match st.reward_min with
    | some m => Except.ok (m : ℝ)
    | none => Except.error "AttributeError: reward_min"

/-- The warnings a call of `ShapedReward.__call__` emits: neither
`__call__` nor `line_overflowing_sum` contains any logging or warning
statement (the `logger` passed to the constructor is never used), so every
call emits none. -/
def callWarnings {α : Type} (_st : State) (_action : α) (_env : Env)
    (_has_error _is_done _is_illegal _is_ambiguous : Bool) : List String := []

end ShapedReward

namespace ShapedRewardDup

/-- The overflow coefficient of `ShapedReward.line_overflowing_sum_reward`
in the duplicate file `shaped_reward.py` (same body, differently named
helper). -/
def overflowCoeff (obs : GridObservation) : Option ℚ :=
  (arrayMax obs.rho).map fun m =>
    if m ≤ 1 then max (m - 1/2) 0
    else ((obs.rho.filter fun r => decide (1 < r)).map fun r => r - 1/2).sum

/-- `n_offline` of `line_overflowing_sum_reward` in `shaped_reward.py`. -/
def n_offline (obs : GridObservation) : ℤ :=
  (obs.line_status.countP (fun b => b == false) : ℤ)
    - (obs.time_next_maintenance.countP (fun t => t == 0) : ℤ)
    - (obs.time_since_last_attack.countP (fun t => decide (0 ≤ t)) : ℤ)

/-- The exponent fed to `math.exp` in `shaped_reward.py`. -/
def rewardExponent (obs : GridObservation) : Option ℚ :=
  (overflowCoeff obs).map fun u => -u - 1/2 * (n_offline obs : ℚ)

/-- `ShapedReward.line_overflowing_sum_reward(env)` of `shaped_reward.py`. -/
noncomputable def line_overflowing_sum_reward (env : Env) : Option ℝ :=
  (rewardExponent env.current_obs).map fun e => Real.exp (e : ℝ)

/-- Instance state of the `ShapedReward` class of `shaped_reward.py`. -/
structure State where
  reward_min : Option ℚ

/-- `ShapedReward.initialize(env)` of `shaped_reward.py`. -/
def initialise (_st : State) (_env : Env) : State := { reward_min := some 0 }

/-- `ShapedReward.__call__` of `shaped_reward.py`: identical to the one in
`shapedReward.py` except that it calls `line_overflowing_sum_reward`. -/
noncomputable def call {α : Type} (st : State) (_action : α) (env : Env)
    (has_error is_done _is_illegal _is_ambiguous : Bool) : Except String ℝ :=
  if !is_done && !has_error then
    match line_overflowing_sum_reward env with
    | some r => Except.ok r
    | none => Except.error "ValueError: zero-size array to reduction operation"
  else
    match st.reward_min with
    | some m => Except.ok (m : ℝ)
    | none => Except.error "AttributeError: reward_min"

end ShapedRewardDup

/-- Scenario A of the spec: three lines with ratios 0.3, 0.4, 0.2, all
connected, none in maintenance, none attacked. -/
def obsA : GridObservation :=
  { rho := [3/10, 2/5, 1/5]
    line_status := [true, true, true]
    time_next_maintenance := [5, 5, 5]
    time_since_last_attack := [-1, -1, -1] }

/-- Scenario B of the spec: ratios 1.2, 0.5, 0.9, first line disconnected,
no maintenance, no attack. -/
def obsB : GridObservation :=
  { rho := [6/5, 1/2, 9/10]
    line_status := [false, true, true]
    time_next_maintenance := [5, 5, 5]
    time_since_last_attack := [-1, -1, -1] }

/-- A data-consistency anomaly: the single line is connected yet counted as
under attack, so `n_offline = 0 - 0 - 1 = -1`. -/
def obsNegOff : GridObservation :=
  { rho := [2/5]
    line_status := [true]
    time_next_maintenance := [5]
    time_since_last_attack := [0] }

/-- A single overflowing line with ratio 2, used for the monotonicity
witness. -/
def obsMono : GridObservation :=
  { rho := [2]
    line_status := [true]
    time_next_maintenance := [5]
    time_since_last_attack := [-1] }

/-- The zero-line observation: all four sequences empty. -/
def emptyObs : GridObservation :=
  { rho := []
    line_status := []
    time_next_maintenance := []
    time_since_last_attack := [] }

theorem foldl_max_le_init (l : List ℚ) (x : ℚ) : x ≤ l.foldl max x := by
  induction l generalizing x with
  | nil => exact le_refl x
  | cons a t ih => exact le_trans (le_max_left x a) (ih (max x a))

theorem le_foldl_max_of_mem {l : List ℚ} {a : ℚ} (ha : a ∈ l) (x : ℚ) :
    a ≤ l.foldl max x := by
  induction l generalizing x with
  | nil => cases ha
  | cons b t ih =>
    rcases List.mem_cons.mp ha with h | h
    · subst h
      exact le_trans (le_max_right x a) (foldl_max_le_init t (max x a))
    · exact ih h (max x b)

theorem le_arrayMax {l : List ℚ} {m a : ℚ} (h : arrayMax l = some m)
    (ha : a ∈ l) : a ≤ m := by
  cases l with
  | nil => cases ha
  | cons x xs =>
    have hm : xs.foldl max x = m := by
      simpa [arrayMax] using h
    rcases List.mem_cons.mp ha with h' | h'
    · subst h'; exact hm ▸ foldl_max_le_init xs a
    · exact hm ▸ le_foldl_max_of_mem h' x

theorem arrayMax_of_mem_gt {l : List ℚ} {a : ℚ} (ha : a ∈ l) (h1 : 1 < a) :
    ∃ m, arrayMax l = some m ∧ 1 < m := by
  cases l with
  | nil => cases ha
  | cons x xs =>
    have hmax : arrayMax (x :: xs) = some (xs.foldl max x) := rfl
    exact ⟨xs.foldl max x, rfl, lt_of_lt_of_le h1 (le_arrayMax hmax ha)⟩

theorem sum_overflow_filter_eq_sum_ite (l : List ℚ) :
    ((l.filter fun r => decide (1 < r)).map fun r => r - 1/2).sum
      = (l.map fun r => if 1 < r then r - 1/2 else 0).sum := by
  induction l with
  | nil => rfl
  | cons a t ih =>
    by_cases h : 1 < a
    · simp only [one_div] at ih ⊢
      simp [List.filter_cons, h, ih]
    · simp only [one_div] at ih ⊢
      simp [List.filter_cons, h, ih]

theorem sum_map_set (g : ℚ → ℚ) (l : List ℚ) (i : ℕ) (v : ℚ)
    (hi : i < l.length) :
    ((l.set i v).map g).sum
      = (l.map g).sum - g (l.get ⟨i, hi⟩) + g v := by
  induction l generalizing i with
  | nil => exact absurd hi (Nat.not_lt_zero i)
  | cons a t ih =>
    cases i with
    | zero =>
      simp only [List.set, List.map_cons, List.sum_cons, List.get]
      ring
    | succ j =>
      have hj : j < t.length := Nat.lt_of_succ_lt_succ hi
      simp only [List.set, List.map_cons, List.sum_cons, List.get, ih j hj]
      ring

theorem countP_eq_card_filter_fin {α : Type} (p : α → Bool) (l : List α) :
    l.countP p = (Finset.univ.filter fun i : Fin l.length => p (l.get i)).card := by
  induction l with
  | nil => rfl
  | cons a t ih =>
    rw [List.countP_cons, Finset.card_filter]
    simp only [List.length_cons]
    rw [Fin.sum_univ_succ]
    have hsum : (∑ i : Fin t.length, if p ((a :: t).get (Fin.succ i)) = true then 1 else 0)
        = ∑ i : Fin t.length, if p (t.get i) = true then 1 else 0 :=
      Finset.sum_congr rfl fun i _ => rfl
    have h0 : (a :: t).get (0 : Fin (t.length + 1)) = a := rfl
    rw [hsum, ← Finset.card_filter, ← ih, h0, Nat.add_comm]

theorem call_nonterminal {α : Type} (st : ShapedReward.State) (a : α) (env : Env)
    (il ia : Bool) (e : ℚ)
    (he : ShapedReward.rewardExponent env.current_obs = some e) :
    ShapedReward.call st a env false false il ia = Except.ok (Real.exp (e : ℝ)) := by
  simp [ShapedReward.call, ShapedReward.line_overflowing_sum, he]

theorem overflowCoeff_of_overflow {obs : GridObservation} {a : ℚ}
    (ha : a ∈ obs.rho) (h1 : 1 < a) :
    ShapedReward.overflowCoeff obs
      = some ((obs.rho.map fun r => if 1 < r then r - 1/2 else 0).sum) := by
  obtain ⟨m, hm, hm1⟩ := arrayMax_of_mem_gt ha h1
  simp only [ShapedReward.overflowCoeff, hm, Option.map_some', if_neg (not_le.mpr hm1),
    sum_overflow_filter_eq_sum_ite]

theorem rewardExponent_of_coeff {obs : GridObservation} {u : ℚ}
    (hu : ShapedReward.overflowCoeff obs = some u) :
    ShapedReward.rewardExponent obs
      = some (-u - 1/2 * (ShapedReward.n_offline obs : ℚ)) := by
  simp [ShapedReward.rewardExponent, hu]

/-- C1: in a non-terminal evaluation the overflow coefficient `u` is computed
piecewise from the line load ratios: if the maximum ratio is at most `1`,
`u = max(rhoMax - 0.5, 0)`; if it exceeds `1`, `u` is the sum of
`ratio - 0.5` over exactly the lines whose ratio is strictly greater than
`1`, lines at or below `1` contributing nothing. -/
theorem C1_overflow_coeff_piecewise (obs : GridObservation) (m : ℚ)
    (hm : arrayMax obs.rho = some m) :
    (m ≤ 1 → ShapedReward.overflowCoeff obs = some (max (m - 1/2) 0))
    ∧ (1 < m → ShapedReward.overflowCoeff obs
        = some ((obs.rho.map fun r => if 1 < r then r - 1/2 else 0).sum)) := by
  constructor
  · intro hle
    simp only [ShapedReward.overflowCoeff, hm, Option.map_some', if_pos hle]
  · intro hgt
    simp only [ShapedReward.overflowCoeff, hm, Option.map_some',
      if_neg (not_le.mpr hgt), sum_overflow_filter_eq_sum_ite]

/-- Witness for C1 at scenario B: the maximal ratio of `obsB` is `6/5`, and
both branches of `C1_overflow_coeff_piecewise` hold there. -/
theorem C1_overflow_coeff_piecewise_witness :
    arrayMax obsB.rho = some (6/5)
    ∧ (((6/5 : ℚ) ≤ 1 → ShapedReward.overflowCoeff obsB = some (max ((6/5 : ℚ) - 1/2) 0))
      ∧ (1 < (6/5 : ℚ) → ShapedReward.overflowCoeff obsB
          = some ((obsB.rho.map fun r => if 1 < r then r - 1/2 else 0).sum))) :=
  ⟨by norm_num [arrayMax, obsB, max_def],
    C1_overflow_coeff_piecewise obsB (6/5) (by norm_num [arrayMax, obsB, max_def])⟩

/-- C2: a non-terminal evaluation returns `exp(-u - 0.5 * n_offline)`; with
`u ≥ 0` and `n_offline ≥ 0` this value lies in the interval `(0, 1]`, and a
value greater than `1` occurs on `obsNegOff`, whose `n_offline` is
negative. -/
theorem C2_reward_range_and_overshoot {α : Type} (obs : GridObservation) (u : ℚ)
    (st : ShapedReward.State) (a : α) (il ia : Bool)
    (hu : ShapedReward.overflowCoeff obs = some u)
    (hu0 : 0 ≤ u) (hn : 0 ≤ ShapedReward.n_offline obs) :
    ShapedReward.call st a ⟨obs⟩ false false il ia
        = Except.ok (Real.exp ((-u - 1/2 * (ShapedReward.n_offline obs : ℚ) : ℚ) : ℝ))
    ∧ 0 < Real.exp ((-u - 1/2 * (ShapedReward.n_offline obs : ℚ) : ℚ) : ℝ)
    ∧ Real.exp ((-u - 1/2 * (ShapedReward.n_offline obs : ℚ) : ℚ) : ℝ) ≤ 1
    ∧ (ShapedReward.n_offline obsNegOff < 0
      ∧ ShapedReward.call st a ⟨obsNegOff⟩ false false il ia
          = Except.ok (Real.exp ((1/2 : ℚ) : ℝ))
      ∧ 1 < Real.exp ((1/2 : ℚ) : ℝ)) := by
  have hq : (-u - 1/2 * (ShapedReward.n_offline obs : ℚ)) ≤ 0 := by
    have hn' : (0 : ℚ) ≤ (ShapedReward.n_offline obs : ℚ) := by exact_mod_cast hn
    linarith
  have hneg : ShapedReward.rewardExponent obsNegOff = some (1/2) := by
    norm_num [ShapedReward.rewardExponent, ShapedReward.overflowCoeff,
      ShapedReward.n_offline, arrayMax, obsNegOff, max_def]
  refine ⟨call_nonterminal st a ⟨obs⟩ il ia _ (rewardExponent_of_coeff hu),
    Real.exp_pos _, Real.exp_le_one_iff.mpr (by exact_mod_cast hq),
    by decide, call_nonterminal st a ⟨obsNegOff⟩ il ia (1/2) hneg,
    Real.one_lt_exp_iff.mpr (by norm_num)⟩

/-- Witness for C2 at scenario A, where `u = 0` and `n_offline = 0`. -/
theorem C2_reward_range_and_overshoot_witness :
    ShapedReward.call ShapedReward.construct () ⟨obsA⟩ false false false false
        = Except.ok (Real.exp ((-0 - 1/2 * (ShapedReward.n_offline obsA : ℚ) : ℚ) : ℝ))
    ∧ 0 < Real.exp ((-0 - 1/2 * (ShapedReward.n_offline obsA : ℚ) : ℚ) : ℝ)
    ∧ Real.exp ((-0 - 1/2 * (ShapedReward.n_offline obsA : ℚ) : ℚ) : ℝ) ≤ 1
    ∧ (ShapedReward.n_offline obsNegOff < 0
      ∧ ShapedReward.call ShapedReward.construct () ⟨obsNegOff⟩ false false false false
          = Except.ok (Real.exp ((1/2 : ℚ) : ℝ))
      ∧ 1 < Real.exp ((1/2 : ℚ) : ℝ)) :=
  C2_reward_range_and_overshoot obsA 0 ShapedReward.construct () false false
    (by norm_num [ShapedReward.overflowCoeff, arrayMax, obsA, max_def])
    (le_refl 0) (by decide)

/-- C3: whenever `is_done` or `has_error` is set, `__call__` returns exactly
the floor `reward_min` (which is `0` after `initialize`), regardless of the
observation; with both flags unset it returns the formula value instead. -/
theorem C3_terminal_returns_floor {α : Type} (st : ShapedReward.State) (q : ℚ)
    (a : α) (env : Env) (has_error is_done il ia : Bool)
    (hq : st.reward_min = some q) (hflag : is_done = true ∨ has_error = true) :
    ShapedReward.call st a env has_error is_done il ia = Except.ok (q : ℝ)
    ∧ (ShapedReward.initialise st env).reward_min = some 0
    ∧ (∀ e : ℚ, ShapedReward.rewardExponent env.current_obs = some e →
        ShapedReward.call st a env false false il ia = Except.ok (Real.exp (e : ℝ))) := by
  refine ⟨?_, rfl, fun e he => call_nonterminal st a env il ia e he⟩
  rcases hflag with h | h <;> subst h <;> simp [ShapedReward.call, hq]

/-- Witness for C3: with `is_done = true` and the floor set by
initialisation, the call on scenario B returns exactly `0`. -/
theorem C3_terminal_returns_floor_witness :
    ShapedReward.call (ShapedReward.initialise ShapedReward.construct ⟨obsA⟩) ()
      ⟨obsB⟩ false true false false = Except.ok ((0 : ℚ) : ℝ) :=
  (C3_terminal_returns_floor (ShapedReward.initialise ShapedReward.construct ⟨obsA⟩)
    0 () ⟨obsB⟩ false true false false rfl (Or.inl rfl)).1

/-- C4: `n_offline` is the unclamped integer difference of the three
per-index line counts — lines whose status is `false`, minus lines whose
`time_next_maintenance` is `0`, minus lines whose `time_since_last_attack`
is nonnegative — and it can be negative. -/
theorem C4_n_offline_unclamped_counts (obs : GridObservation) :
    ShapedReward.n_offline obs
      = ((Finset.univ.filter fun i : Fin obs.line_status.length =>
            obs.line_status.get i = false).card : ℤ)
        - ((Finset.univ.filter fun i : Fin obs.time_next_maintenance.length =>
            obs.time_next_maintenance.get i = 0).card : ℤ)
        - ((Finset.univ.filter fun i : Fin obs.time_since_last_attack.length =>
            0 ≤ obs.time_since_last_attack.get i).card : ℤ)
    ∧ ShapedReward.n_offline obsNegOff < 0 := by
  refine ⟨?_, by decide⟩
  rw [ShapedReward.n_offline, countP_eq_card_filter_fin, countP_eq_card_filter_fin,
    countP_eq_card_filter_fin]
  simp only [beq_iff_eq, decide_eq_true_eq]

/-- C5: on a zero-line observation (all four sequences empty) a non-terminal
call fails (numpy's empty `max` raises) instead of silently returning `0`. -/
theorem C5_zero_lines_error {α : Type} (st : ShapedReward.State) (a : α)
    (obs : GridObservation) (il ia : Bool)
    (h1 : obs.rho = []) (h2 : obs.line_status = [])
    (h3 : obs.time_next_maintenance = []) (h4 : obs.time_since_last_attack = []) :
    ShapedReward.call st a ⟨obs⟩ false false il ia
        = Except.error "ValueError: zero-size array to reduction operation"
    ∧ ShapedReward.call st a ⟨obs⟩ false false il ia ≠ Except.ok ((0 : ℚ) : ℝ) := by
  have hmax : arrayMax obs.rho = none := by rw [h1]; rfl
  have hexp : ShapedReward.rewardExponent obs = none := by
    simp [ShapedReward.rewardExponent, ShapedReward.overflowCoeff, hmax]
  constructor
  · simp [ShapedReward.call, ShapedReward.line_overflowing_sum, hexp]
  · simp [ShapedReward.call, ShapedReward.line_overflowing_sum, hexp]

/-- Witness for C5 at the concrete empty observation. -/
theorem C5_zero_lines_error_witness :
    ShapedReward.call ShapedReward.construct () ⟨emptyObs⟩ false false false false
        = Except.error "ValueError: zero-size array to reduction operation"
    ∧ ShapedReward.call ShapedReward.construct () ⟨emptyObs⟩ false false false false
        ≠ Except.ok ((0 : ℚ) : ℝ) :=
  C5_zero_lines_error ShapedReward.construct () emptyObs false false rfl rfl rfl rfl

/-- C6: strict monotonicity in an overflowing line — raising the ratio of a
line that is strictly above `1` strictly decreases the value returned by a
non-terminal call, all other inputs held fixed. -/
theorem C6_overflow_monotone {α : Type} (obs : GridObservation) (i : ℕ)
    (hi : i < obs.rho.length) (v : ℚ) (st : ShapedReward.State) (a : α)
    (il ia : Bool) (hover : 1 < obs.rho.get ⟨i, hi⟩)
    (hinc : obs.rho.get ⟨i, hi⟩ < v) (e e' : ℚ)
    (he : ShapedReward.rewardExponent obs = some e)
    (he' : ShapedReward.rewardExponent { obs with rho := obs.rho.set i v } = some e') :
    ShapedReward.call st a ⟨obs⟩ false false il ia = Except.ok (Real.exp (e : ℝ))
    ∧ ShapedReward.call st a ⟨{ obs with rho := obs.rho.set i v }⟩ false false il ia
        = Except.ok (Real.exp (e' : ℝ))
    ∧ Real.exp (e' : ℝ) < Real.exp (e : ℝ) := by
  have hv1 : 1 < v := lt_trans hover hinc
  have hmem : obs.rho.get ⟨i, hi⟩ ∈ obs.rho := List.get_mem obs.rho i hi
  have hu : ShapedReward.overflowCoeff obs
      = some ((obs.rho.map fun r => if 1 < r then r - 1/2 else 0).sum) :=
    overflowCoeff_of_overflow hmem hover
  have hlen' : i < (obs.rho.set i v).length := by simpa using hi
  have hget' : (obs.rho.set i v).get ⟨i, hlen'⟩ = v := List.get_set_eq hlen'
  have hmem' : v ∈ obs.rho.set i v := by
    have hm := List.get_mem (obs.rho.set i v) i hlen'
    rwa [hget'] at hm
  have hu' : ShapedReward.overflowCoeff { obs with rho := obs.rho.set i v }
      = some (((obs.rho.set i v).map fun r => if 1 < r then r - 1/2 else 0).sum) :=
    overflowCoeff_of_overflow hmem' hv1
  have hnoff : ShapedReward.n_offline { obs with rho := obs.rho.set i v }
      = ShapedReward.n_offline obs := rfl
  have hsum := sum_map_set (fun r => if 1 < r then r - 1/2 else 0) obs.rho i v hi
  simp only [if_pos hover, if_pos hv1] at hsum
  have hee : e = -((obs.rho.map fun r => if 1 < r then r - 1/2 else 0).sum)
      - 1/2 * (ShapedReward.n_offline obs : ℚ) := by
    have h := rewardExponent_of_coeff hu
    rw [he] at h
    exact Option.some.inj h
  have hee' : e' = -(((obs.rho.set i v).map fun r => if 1 < r then r - 1/2 else 0).sum)
      - 1/2 * (ShapedReward.n_offline obs : ℚ) := by
    have h := rewardExponent_of_coeff hu'
    rw [he', hnoff] at h
    exact Option.some.inj h
  have hlt : e' < e := by
    rw [hee, hee', hsum]
    linarith
  exact ⟨call_nonterminal st a ⟨obs⟩ il ia e he,
    call_nonterminal st a ⟨{ obs with rho := obs.rho.set i v }⟩ il ia e' he',
    Real.exp_lt_exp.mpr (by exact_mod_cast hlt)⟩

/-- Witness for C6: raising the single overflowing line of `obsMono` from
ratio `2` to ratio `3` lowers the reward from `exp(-3/2)` to `exp(-5/2)`. -/
theorem C6_overflow_monotone_witness :
    ShapedReward.call ShapedReward.construct () ⟨obsMono⟩ false false false false
        = Except.ok (Real.exp ((-(3/2) : ℚ) : ℝ))
    ∧ ShapedReward.call ShapedReward.construct ()
        ⟨{ obsMono with rho := obsMono.rho.set 0 3 }⟩ false false false false
        = Except.ok (Real.exp ((-(5/2) : ℚ) : ℝ))
    ∧ Real.exp ((-(5/2) : ℚ) : ℝ) < Real.exp ((-(3/2) : ℚ) : ℝ) :=
  C6_overflow_monotone obsMono 0 (by decide) 3 ShapedReward.construct () false false
    (by decide) (by decide) (-(3/2)) (-(5/2))
    (by norm_num [ShapedReward.rewardExponent, ShapedReward.overflowCoeff,
      ShapedReward.n_offline, arrayMax, obsMono, max_def, List.filter])
    (by norm_num [ShapedReward.rewardExponent, ShapedReward.overflowCoeff,
      ShapedReward.n_offline, arrayMax, obsMono, max_def, List.filter])

/-- C7 counterexample: on `obsNegOff` the offline count is negative, yet the
call emits no warning at all — in particular no `DataConsistencyWarning` is
surfaced — refuting the claim on the code as written. -/
theorem C7_no_warning_counterexample :
    ShapedReward.n_offline obsNegOff < 0
    ∧ ShapedReward.callWarnings ShapedReward.construct () ⟨obsNegOff⟩
        false false false false = []
    ∧ "DataConsistencyWarning"
        ∉ ShapedReward.callWarnings ShapedReward.construct () ⟨obsNegOff⟩
            false false false false :=
  ⟨by decide, rfl, by simp [ShapedReward.callWarnings]⟩

/-- C7 (amended): when `n_offline` is negative the call emits no warning at
all; it does not clamp `n_offline` at `0` — the reward is computed from the
negative value and exceeds `1` whenever `u < -n_offline/2`. -/
theorem C7_negative_unclamped_no_warning {α : Type} (st : ShapedReward.State)
    (a : α) (obs : GridObservation) (il ia : Bool) (u : ℚ)
    (hu : ShapedReward.overflowCoeff obs = some u)
    (hn : ShapedReward.n_offline obs < 0) :
    ShapedReward.callWarnings st a ⟨obs⟩ false false il ia = []
    ∧ ShapedReward.call st a ⟨obs⟩ false false il ia
        = Except.ok (Real.exp ((-u - 1/2 * (ShapedReward.n_offline obs : ℚ) : ℚ) : ℝ))
    ∧ (u < -(1/2) * (ShapedReward.n_offline obs : ℚ) →
        1 < Real.exp ((-u - 1/2 * (ShapedReward.n_offline obs : ℚ) : ℚ) : ℝ)) := by
  refine ⟨rfl, call_nonterminal st a ⟨obs⟩ il ia _ (rewardExponent_of_coeff hu), ?_⟩
  intro hlt
  apply Real.one_lt_exp_iff.mpr
  have hq : (0 : ℚ) < -u - 1/2 * (ShapedReward.n_offline obs : ℚ) := by linarith
  exact_mod_cast hq

/-- Witness for the amended C7 at `obsNegOff`, where `u = 0`,
`n_offline = -1` and the returned reward is `exp(1/2) > 1`. -/
theorem C7_negative_unclamped_no_warning_witness :
    ShapedReward.callWarnings ShapedReward.construct () ⟨obsNegOff⟩
        false false false false = []
    ∧ ShapedReward.call ShapedReward.construct () ⟨obsNegOff⟩ false false false false
        = Except.ok (Real.exp ((-0 - 1/2 * (ShapedReward.n_offline obsNegOff : ℚ) : ℚ) : ℝ))
    ∧ 1 < Real.exp ((-0 - 1/2 * (ShapedReward.n_offline obsNegOff : ℚ) : ℚ) : ℝ) := by
  obtain ⟨h1, h2, h3⟩ := C7_negative_unclamped_no_warning ShapedReward.construct ()
    obsNegOff false false 0
    (by norm_num [ShapedReward.overflowCoeff, arrayMax, obsNegOff, max_def])
    (by decide)
  have hval : ShapedReward.n_offline obsNegOff = -1 := by decide
  refine ⟨h1, h2, h3 ?_⟩
  rw [hval]
  norm_num

/-- C8: noninterference of the unused parameters — two calls agreeing on the
state, environment, `has_error` and `is_done` return the same value whatever
the action, `is_illegal` and `is_ambiguous` arguments are. -/
theorem C8_unused_params_noninterference {α β : Type} (st : ShapedReward.State)
    (a₁ : α) (a₂ : β) (env : Env) (has_error is_done il₁ il₂ ia₁ ia₂ : Bool) :
    ShapedReward.call st a₁ env has_error is_done il₁ ia₁
      = ShapedReward.call st a₂ env has_error is_done il₂ ia₂ := rfl

/-- C9: the `ShapedReward.__call__` of `shapedReward.py` and the one of the
duplicate `shaped_reward.py` agree on every state, action, environment and
flag combination. -/
theorem C9_duplicate_files_equivalent {α : Type} (q : Option ℚ) (a : α)
    (env : Env) (has_error is_done il ia : Bool) :
    ShapedReward.call { reward_min := q } a env has_error is_done il ia
      = ShapedRewardDup.call { reward_min := q } a env has_error is_done il ia := rfl

/-- C10: before `initialize` has run the floor branch fails (the
`reward_min` attribute is absent); after `initialize` it always returns
`0`. -/
theorem C10_floor_needs_initialisation {α : Type} (a : α) (env : Env)
    (has_error is_done il ia : Bool) (hflag : is_done = true ∨ has_error = true) :
    ShapedReward.call ShapedReward.construct a env has_error is_done il ia
        = Except.error "AttributeError: reward_min"
    ∧ ∀ st : ShapedReward.State,
        ShapedReward.call (ShapedReward.initialise st env) a env has_error is_done il ia
          = Except.ok ((0 : ℚ) : ℝ) := by
  rcases hflag with h | h <;> subst h
  · exact ⟨by simp [ShapedReward.call, ShapedReward.construct],
      fun st => by simp [ShapedReward.call, ShapedReward.initialise]⟩
  · exact ⟨by simp [ShapedReward.call, ShapedReward.construct],
      fun st => by simp [ShapedReward.call, ShapedReward.initialise]⟩

/-- Witness for C10: on scenario A with `is_done = true`, the
never-initialised instance fails and the initialised one returns `0`. -/
theorem C10_floor_needs_initialisation_witness :
    ShapedReward.call ShapedReward.construct () ⟨obsA⟩ false true false false
        = Except.error "AttributeError: reward_min"
    ∧ ShapedReward.call (ShapedReward.initialise ShapedReward.construct ⟨obsA⟩) ()
        ⟨obsA⟩ false true false false = Except.ok ((0 : ℚ) : ℝ) := by
  obtain ⟨h1, h2⟩ :=
    C10_floor_needs_initialisation () (⟨obsA⟩ : Env) false true false false (Or.inl rfl)
  exact ⟨h1, h2 ShapedReward.construct⟩

end Grid2Op
